import Mathlib

/-!
Shallow embedding of the core of the `assh` SSH engine, for checking the
natural-language specification against the source.

The embedding covers:
* the SSH-TRANS message space relevant to the session loop (`Packet`);
* the session state machine from `assh/src/session.rs` (`Session.recvFuel`,
  `Session.send`, `Session.readable`, `Session.disconnect`, `Session.request`);
* the kex-algorithm negotiation from `assh/src/algorithm/kex.rs` (`negociate`);
* the transport padding from `src/transport/mod.rs` (`Transport.pad`);
* server-side authentication from `assh-auth/src/handler/mod.rs`
  (`Auth.handle_attempt`, `Auth.proceedLoop`, `Auth.proceed`);
* the client-side auth layer from `assh-auth/src/client/mod.rs`
  (`ClientAuth.on_kex`);
* the channel write adapter from `assh-connect/src/channel/io/write.rs`
  (`Write.poll_write`).

Asynchronous I/O is modelled by explicit state passing: a `SshStream` records the
packets still to be received (`pending`) and the packets already written
(`sent`); blocking/pending behaviour of the cooperative loops is modelled with
a fuel parameter (`Option.none` = the loop did not settle within the fuel).
The key-exchange driver (`Side::kex`), whose concrete implementation is out of
scope of the examined claims, is a parameter `kexd` of the session operations.
-/

/-- Disconnect reasons used by this core (subset of RFC 4253 §11.1 used by the
source). -/
inductive DisconnectReason where
  | protocolError
  | keyExchangeFailed
  | macError
  | serviceNotAvailable
  | protocolVersionNotSupported
  | byApplication
deriving DecidableEq, Repr

/-- Which side initiated the disconnection (`error::DisconnectedBy`). -/
inductive DisconnectedBy where
  | us
  | them
deriving DecidableEq, Repr

/-- The sticky terminal error of a disconnected session
(`error::DisconnectedError`). -/
structure DisconnectedError where
  by_ : DisconnectedBy
  reason : DisconnectReason
  description : String
deriving DecidableEq, Repr

/-- Userauth methods as elements of the server's allowed-methods set
(`assh-auth/src/handler/method.rs`, an `EnumSet`-able enum). -/
inductive Method where
  | none
  | password
  | publickey
  | hostbased
  | keyboardInteractive
deriving DecidableEq, Repr

/-- The allowed-methods set: a bitset over `Method`, mirroring
`enumset::EnumSet<Method>`. -/
structure MethodSet where
  hasNone : Bool
  hasPassword : Bool
  hasPublickey : Bool
  hasHostbased : Bool
  hasKeyboardInteractive : Bool
deriving DecidableEq, Repr

def MethodSet.mem (s : MethodSet) : Method → Bool
  | .none => s.hasNone
  | .password => s.hasPassword
  | .publickey => s.hasPublickey
  | .hostbased => s.hasHostbased
  | .keyboardInteractive => s.hasKeyboardInteractive

def MethodSet.insert (s : MethodSet) : Method → MethodSet
  | .none => { s with hasNone := true }
  | .password => { s with hasPassword := true }
  | .publickey => { s with hasPublickey := true }
  | .hostbased => { s with hasHostbased := true }
  | .keyboardInteractive => { s with hasKeyboardInteractive := true }

def MethodSet.erase (s : MethodSet) : Method → MethodSet
  | .none => { s with hasNone := false }
  | .password => { s with hasPassword := false }
  | .publickey => { s with hasPublickey := false }
  | .hostbased => { s with hasHostbased := false }
  | .keyboardInteractive => { s with hasKeyboardInteractive := false }

/-- `EnumSet::remove` returns whether the element was present, and erases it. -/
def MethodSet.remove (s : MethodSet) (m : Method) : Bool × MethodSet :=
  (s.mem m, s.erase m)

/-- The method field of a `USERAUTH_REQUEST` (`ssh_packet::userauth::Method`). -/
inductive AuthMethod where
  | none
  | publickey (algorithm : List Nat) (blob : List Nat) (signature : Option (List Nat))
  | password (password : String) (new : Option String)
  | hostbased
  | keyboardInteractive
deriving DecidableEq, Repr

/-- `userauth::Method::as_ref`: the set element a request method corresponds to. -/
def AuthMethod.toMethod : AuthMethod → Method
  | .none => .none
  | .publickey _ _ _ => .publickey
  | .password _ _ => .password
  | .hostbased => .hostbased
  | .keyboardInteractive => .keyboardInteractive

/-- Whether the request is a signature-less publickey query. -/
def AuthMethod.isQuery : AuthMethod → Bool
  | .publickey _ _ Option.none => true
  | _ => false

/-- The key blob carried by a publickey request, when there is one. -/
def AuthMethod.blob? : AuthMethod → Option (List Nat)
  | .publickey _ blob _ => some blob
  | _ => Option.none

/-- The wire messages (`ssh_packet::Packet`, parsed): the constructors cover the
message kinds the embedded code inspects with `Packet::to`; `other` stands for
any further payload. -/
inductive Packet where
  | disconnect (reason : DisconnectReason) (description : String)
  | ignore (data : List Nat)
  | unimplemented (seq : Nat)
  | debug (message : String)
  | kexInit
  | serviceRequest (name : String)
  | serviceAccept (name : String)
  | userauthRequest (username : String) (serviceName : String) (method : AuthMethod)
  | userauthFailure (continueWith : MethodSet) (partialSuccess : Bool)
  | userauthSuccess
  | userauthBanner (message : String)
  | userauthPkOk (blob : List Nat) (algorithm : List Nat)
  | userauthPasswdChangereq (prompt : String)
  | other (payload : List Nat)
deriving DecidableEq, Repr

/-- `packet.to::<KexInit>().is_ok()`. -/
def Packet.isKexInit : Packet → Bool
  | .kexInit => true
  | _ => false

/-- The transparent SSH-TRANS messages the session consumes silently:
`Ignore`, `Unimplemented`, `Debug`. -/
def Packet.isTransparent : Packet → Bool
  | .ignore _ => true
  | .unimplemented _ => true
  | .debug _ => true
  | _ => false

/-- `packet.to::<Disconnect>().is_ok()`. -/
def Packet.isDisconnect : Packet → Bool
  | .disconnect _ _ => true
  | _ => false

/-- Error taxonomy of the embedded code (`assh::Error`, restricted to the
variants the embedded fragments produce). -/
inductive Error where
  | disconnected (e : DisconnectedError)
  | io
  | key
  | noCommonKex
  | unexpectedMessage
  | unimplementedMethod
deriving DecidableEq, Repr

/-- The observable state of the `SshStream`: `pending` is the ordered sequence of
packets the peer will deliver, `sent` the packets written so far, `rekeyable`
the value of `is_rekeyable()`, and `sessionId` the frozen first exchange hash. -/
structure SshStream where
  pending : List Packet
  sent : List Packet
  rekeyable : Bool
  sessionId : Option (List Nat)
deriving DecidableEq, Repr

/-- `Session.stream : Either<SshStream, DisconnectedError>` — a session is either
live or terminated with a sticky error. -/
inductive Session where
  | live (s : SshStream)
  | terminated (e : DisconnectedError)
deriving DecidableEq, Repr

/-- The type of the side-specific key-exchange driver `config.kex(stream, peer_id)`:
it consumes and produces stream state, or fails. -/
abbrev Kexd := SshStream → Except Error SshStream

/-- `Session::recv` (session.rs lines 83-121), with a fuel bound on the number
of loop iterations; `Option.none` means the loop did not settle within the
fuel. On a terminated session the stored error is returned as-is. -/
def Session.recvFuel (kexd : Kexd) : Nat → Session → Option (Except Error Packet × Session)
  | _, .terminated e => some (.error (.disconnected e), .terminated e)
  | 0, .live _ => Option.none
  | n + 1, .live s =>
    if s.rekeyable then
      match kexd s with
      | .error e => some (.error e, .live s)
      | .ok s2 => Session.recvFuel kexd n (.live s2)
    else
      match s.pending with
      | [] => some (.error .io, .live s)
      | p :: rest =>
        if p.isKexInit then
          match kexd s with
          | .error e => some (.error e, .live s)
          | .ok s2 => Session.recvFuel kexd n (.live s2)
        else
          match p with
          | .disconnect reason description =>
            some (.error (.disconnected ⟨.them, reason, description⟩),
                  .terminated ⟨.them, reason, description⟩)
          | .ignore _ => Session.recvFuel kexd n (.live { s with pending := rest })
          | .unimplemented _ => Session.recvFuel kexd n (.live { s with pending := rest })
          | .debug _ => Session.recvFuel kexd n (.live { s with pending := rest })
          | _ => some (.ok p, .live { s with pending := rest })

/-- `Session::send` (session.rs lines 124-137): short-circuit on a terminated
session; otherwise opportunistic rekey (threshold reached, or an inbound
KEXINIT is buffered), then transmit. -/
def Session.send (kexd : Kexd) (msg : Packet) : Session → Except Error Unit × Session
  | .terminated e => (.error (.disconnected e), .terminated e)
  | .live s =>
    if s.rekeyable || (match s.pending.head? with | some p => p.isKexInit | Option.none => false) then
      match kexd s with
      | .error e => (.error e, .live s)
      | .ok s2 => (.ok (), .live { s2 with sent := s2.sent ++ [msg] })
    else
      (.ok (), .live { s with sent := s.sent ++ [msg] })

/-- `Session::readable` (session.rs lines 69-76): short-circuit on a terminated
session, otherwise wait for buffered bytes (an empty pending stream is end of
input, surfaced as an I/O error). -/
def Session.readable : Session → Except Error Unit × Session
  | .terminated e => (.error (.disconnected e), .terminated e)
  | .live s =>
    match s.pending with
    | [] => (.error .io, .live s)
    | _ => (.ok (), .live s)

/-- `Session::disconnect` (session.rs lines 140-162): best-effort send of a
DISCONNECT (a non-`Disconnected` send error is discarded), then move to the
terminated state with a sticky `DisconnectedError { by: Us, .. }`. -/
def Session.disconnect (kexd : Kexd) (reason : DisconnectReason) (description : String)
    (st : Session) : DisconnectedError × Session :=
  match Session.send kexd (.disconnect reason description) st with
  | (.error (.disconnected e), st2) => (e, st2)
  | (_, _) =>
    let e : DisconnectedError := ⟨.us, reason, description⟩
    (e, .terminated e)

/-- `Session::request` (session.rs lines 199-232): send `SERVICE_REQUEST`,
receive; a `SERVICE_ACCEPT` with the same name hands over to `on_accept`
(modelled by returning `.ok ()`); a `SERVICE_ACCEPT` with a different name
disconnects with `ServiceNotAvailable`; any other packet disconnects with
`ProtocolError`. -/
def Session.request (kexd : Kexd) (fuel : Nat) (name : String) (st : Session) :
    Option (Except Error Unit × Session) :=
  match Session.send kexd (.serviceRequest name) st with
  | (.error e, st1) => some (.error e, st1)
  | (.ok _, st1) =>
    match Session.recvFuel kexd fuel st1 with
    | Option.none => Option.none
    | some (.error e, st2) => some (.error e, st2)
    | some (.ok p, st2) =>
      match p with
      | .serviceAccept n =>
        if n = name then
          some (.ok (), st2)
        else
          let (e, st3) :=
            Session.disconnect kexd .serviceNotAvailable "Accepted service is unknown" st2
          some (.error (.disconnected e), st3)
      | _ =>
        let (e, st3) :=
          Session.disconnect kexd .protocolError
            "Unexpected message outside of a service response" st2
        some (.error (.disconnected e), st3)

/-- Client-side auth layer state (`assh-auth/src/client/mod.rs`, `enum State`). -/
inductive ClientState where
  | unauthorized
  | authorized
deriving DecidableEq, Repr

/-- `impl Layer<Client> for Auth`, `on_kex` (client/mod.rs lines 72-86), as it
stands in the source: the `Unauthorized` arm contains no statements besides the
transition to `Authorized`, so the stream is returned untouched and nothing is
sent. -/
def ClientAuth.on_kex : ClientState → SshStream → ClientState × SshStream
  | .unauthorized, s => (.authorized, s)
  | .authorized, s => (.authorized, s)

/-- Outcome of one authentication attempt (handler/mod.rs, `enum Attempt`). -/
inductive Attempt where
  | success
  | partialSuccess
  | failure
  | continue_
deriving DecidableEq, Repr

/-- Response of the `none`-method handler collaborator. -/
inductive NoneResponse where
  | accept
  | reject
deriving DecidableEq, Repr

/-- Response of the `password`-method handler collaborator. -/
inductive PasswordResponse where
  | accept
  | reject
  | passwordExpired (prompt : String)
deriving DecidableEq, Repr

/-- Response of the `publickey`-method handler collaborator. -/
inductive PkResponse where
  | accept
  | reject
deriving DecidableEq, Repr

/-- A parsed public key (`ssh_key::PublicKey`): its algorithm name (as bytes,
compared against the request's declared algorithm) and its raw material. -/
structure PublicKey where
  alg : List Nat
  raw : List Nat
deriving DecidableEq, Repr

/-- The canonical signed blob `ssh_packet::cryptography::PublickeySignature`. -/
structure SigMessage where
  sessionId : List Nat
  username : String
  serviceName : String
  algorithm : List Nat
  blob : List Nat
deriving DecidableEq, Repr

/-- The external collaborators of the server-side `Auth` handler: the three
per-method handlers, key/signature parsing and signature verification from
`ssh_key`, and the upper-layer service registry `Handlers::handle`. -/
structure AuthHandlers where
  noneH : String → NoneResponse
  passwordH : String → String → Option String → PasswordResponse
  publickeyH : String → PublicKey → PkResponse
  parseKey : List Nat → Option PublicKey
  parseSig : List Nat → Option (List Nat)
  verify : SigMessage → PublicKey → List Nat → Bool
  serviceH : String → Except Error Unit

/-- Server-side `Auth` handler state: the optional banner and the
allowed-methods set (handler/mod.rs, `struct Auth`). -/
structure AuthSt where
  banner : Option String
  methods : MethodSet
deriving DecidableEq, Repr

/-- The session identifier used for the signed blob:
`session.session_id().unwrap_or_default()`. -/
def Session.sessionIdOrDefault : Session → List Nat
  | .live s => s.sessionId.getD []
  | .terminated _ => []

/-- `Auth::handle_attempt` (handler/mod.rs lines 149-262). Sends that it
performs go through `Session.send`; a send error propagates (`?`). The
`hostbased` and `keyboard-interactive` arms are `unimplemented!()` in the
source, modelled as the distinguished error `unimplementedMethod`. -/
def Auth.handle_attempt (H : AuthHandlers) (kexd : Kexd) (auth : AuthSt) (session : Session)
    (username : String) (method : AuthMethod) (serviceName : String) :
    Except Error (Attempt × AuthSt × Session) :=
  match method with
  | .none =>
    match H.noneH username with
    | .accept => .ok (.success, auth, session)
    | .reject => .ok (.failure, auth, session)
  | .publickey algorithm blob signature =>
    let key := H.parseKey blob
    match signature with
    | some signature =>
      match key with
      | some k =>
        if k.alg = algorithm then
          match H.parseSig signature with
          | Option.none => .error .key
          | some sig =>
            let message : SigMessage :=
              ⟨session.sessionIdOrDefault, username, serviceName, algorithm, blob⟩
            if H.verify message k sig && (H.publickeyH username k == PkResponse.accept) then
              .ok (.success, auth, session)
            else
              .ok (.failure, auth, session)
        else
          .ok (.failure, auth, session)
      | Option.none => .ok (.failure, auth, session)
    | Option.none =>
      let auth := { auth with methods := auth.methods.insert .publickey }
      match key with
      | some _ =>
        match Session.send kexd (.userauthPkOk blob algorithm) session with
        | (.error e, _) => .error e
        | (.ok _, s2) => .ok (.continue_, auth, s2)
      | Option.none => .ok (.failure, auth, session)
  | .password password new =>
    match H.passwordH username password new with
    | .accept => .ok (.success, auth, session)
    | .passwordExpired prompt =>
      let auth := { auth with methods := auth.methods.insert .password }
      match Session.send kexd (.userauthPasswdChangereq prompt) session with
      | (.error e, _) => .error e
      | (.ok _, s2) => .ok (.continue_, auth, s2)
    | .reject => .ok (.failure, auth, session)
  | .hostbased => .error .unimplementedMethod
  | .keyboardInteractive => .error .unimplementedMethod

/-- The `loop` of `Auth::proceed` (handler/mod.rs lines 283-334), fuelled. On a
successful attempt the upper-layer registry is handed the embedded service
name (whose name is also returned for observability); a failed or partial
attempt is answered with `USERAUTH_FAILURE { continue_with: methods, .. }`; a
non-`USERAUTH_REQUEST` packet disconnects with `ProtocolError` and surfaces
`UnexpectedMessage`. -/
def Auth.proceedLoop (H : AuthHandlers) (kexd : Kexd) :
    Nat → AuthSt → Session → Option (Except Error (String × AuthSt × Session))
  | 0, _, _ => Option.none
  | fuel + 1, auth, session =>
    match Session.recvFuel kexd (fuel + 1) session with
    | Option.none => Option.none
    | some (.error e, _) => some (.error e)
    | some (.ok p, s1) =>
      match p with
      | .userauthRequest username serviceName method =>
        if auth.methods.mem method.toMethod then
          let auth1 := { auth with methods := auth.methods.erase method.toMethod }
          match Auth.handle_attempt H kexd auth1 s1 username method serviceName with
          | .error e => some (.error e)
          | .ok (.success, auth2, s2) =>
            match Session.send kexd .userauthSuccess s2 with
            | (.error e, _) => some (.error e)
            | (.ok _, s3) =>
              match H.serviceH serviceName with
              | .error e => some (.error e)
              | .ok _ => some (.ok (serviceName, auth2, s3))
          | .ok (.failure, auth2, s2) =>
            match Session.send kexd (.userauthFailure auth2.methods false) s2 with
            | (.error e, _) => some (.error e)
            | (.ok _, s3) => Auth.proceedLoop H kexd fuel auth2 s3
          | .ok (.partialSuccess, auth2, s2) =>
            match Session.send kexd (.userauthFailure auth2.methods true) s2 with
            | (.error e, _) => some (.error e)
            | (.ok _, s3) => Auth.proceedLoop H kexd fuel auth2 s3
          | .ok (.continue_, auth2, s2) => Auth.proceedLoop H kexd fuel auth2 s2
        else
          match Session.send kexd (.userauthFailure auth.methods false) s1 with
          | (.error e, _) => some (.error e)
          | (.ok _, s2) => Auth.proceedLoop H kexd fuel auth s2
      | _ =>
        let (_, _) :=
          Session.disconnect kexd .protocolError
            "Unexpected message in the context of the `ssh-userauth` service request." s1
        some (.error .unexpectedMessage)

/-- `Auth::proceed` (handler/mod.rs lines 270-335): send the banner once, if
configured, then run the request loop. -/
def Auth.proceed (H : AuthHandlers) (kexd : Kexd) (fuel : Nat) (auth : AuthSt)
    (session : Session) : Option (Except Error (String × AuthSt × Session)) :=
  match auth.banner with
  | some message =>
    match Session.send kexd (.userauthBanner message) session with
    | (.error e, _) => some (.error e)
    | (.ok _, s1) => Auth.proceedLoop H kexd fuel { auth with banner := Option.none } s1
  | Option.none => Auth.proceedLoop H kexd fuel auth session

/-- `Transport::pad` (src/transport/mod.rs lines 79-90): prefix the buffer with
the padding length, then extend with `padding` freshly drawn random bytes; the
random generator is modelled as a function from draw index to byte. -/
def Transport.pad (buf : List Nat) (padding : Nat) (rng : Nat → Nat) :
    Except Error (List Nat) :=
  .ok (padding :: (buf ++ (List.range padding).map rng))

/-- SSH key-exchange algorithms (algorithm/kex.rs, `enum Kex`). -/
inductive Kex where
  | curve25519Sha256
  | curve25519Sha256Libssh
deriving DecidableEq, Repr

/-- The `FromStr` instance derived by `strum` on `Kex` (kebab-case names plus
the explicit `curve25519-sha256@libssh.org` alias). -/
def Kex.parse (s : String) : Option Kex :=
  if s = "curve25519-sha256" then some .curve25519Sha256
  else if s = "curve25519-sha256@libssh.org" then some .curve25519Sha256Libssh
  else Option.none

/-- Modelled from the spec: `NameList::preferred_in` of the external
`ssh-packet` crate, missing from the sources — "each slot chooses the first
client-preferred algorithm that also appears in the server's list". -/
def preferredIn (client server : List String) : Option String :=
  client.find? (fun a => server.contains a)

/-- `negociate` (algorithm/kex.rs lines 19-26): the first client-preferred
kex name present in the server's list, parsed into `Kex`; a missing common
name, or a common name that fails to parse, is `NoCommonKex`. -/
def negociate (clientkex serverkex : List String) : Except Error Kex :=
  match preferredIn clientkex serverkex with
  | Option.none => .error .noCommonKex
  | some name =>
    match Kex.parse name with
    | Option.none => .error .noCommonKex
    | some k => .ok k

/-- Data packets emitted by the channel write adapter
(`connect::ChannelData` / `connect::ChannelExtendedData`). -/
inductive DataPacket where
  | channelData (recipient : Nat) (data : List Nat)
  | channelExtendedData (recipient : Nat) (dataType : Nat) (data : List Nat)
deriving DecidableEq, Repr

/-- Payload length of an emitted data packet. -/
def DataPacket.dataLen : DataPacket → Nat
  | .channelData _ data => data.length
  | .channelExtendedData _ _ data => data.length

/-- State of the channel `Write` adapter (write.rs, `struct Write`): the sink is
modelled as always ready, with the emitted packets recorded in `sentPackets`. -/
structure WriteSt where
  remoteId : Nat
  streamId : Option Nat
  buffer : List Nat
  sentPackets : List DataPacket
  maxSize : Nat
deriving DecidableEq, Repr

/-- `Write::poll_send` (write.rs lines 40-64): drain the buffer into a
`ChannelData` or `ChannelExtendedData` packet and hand it to the sink. -/
def Write.poll_send (st : WriteSt) : WriteSt :=
  let packet :=
    match st.streamId with
    | some dataType => DataPacket.channelExtendedData st.remoteId dataType st.buffer
    | Option.none => DataPacket.channelData st.remoteId st.buffer
  { st with buffer := [], sentPackets := st.sentPackets ++ [packet] }

/-- `Write::poll_write` (write.rs lines 67-86), fuelled: if no room is left for
this buffer slice, flush and retry; otherwise reserve window for up to
`min(|buf|, max_size - buffer.len())` bytes, append the reserved amount to the
buffer and return it. -/
def Write.poll_write (reserve : Nat → Nat) (buf : List Nat) :
    Nat → WriteSt → Option (Nat × WriteSt)
  | 0, _ => Option.none
  | fuel + 1, st =>
    let writable := min buf.length (st.maxSize - st.buffer.length)
    if writable = 0 then
      Write.poll_write reserve buf fuel (Write.poll_send st)
    else
      let reserved := reserve writable
      some (reserved, { st with buffer := st.buffer ++ buf.take reserved })

/-- A trivial key-exchange driver used by concrete instantiations. -/
def kexd0 : Kexd := fun s => Except.ok s

/-- A concrete collaborator bundle used by concrete instantiations: all
handlers reject, key and signature parsing fail, verification fails. -/
def H0 : AuthHandlers :=
  ⟨fun _ => .reject, fun _ _ _ => .reject, fun _ _ => .reject,
   fun _ => Option.none, fun _ => Option.none, fun _ _ _ => false, fun _ => .ok ()⟩

theorem recvFuel_step_transparent (kexd : Kexd) (n : Nat) (s : SshStream) (p : Packet)
    (rest : List Packet) (hrk : s.rekeyable = false) (hp : s.pending = p :: rest)
    (ht : p.isTransparent = true) :
    Session.recvFuel kexd (n + 1) (.live s) =
      Session.recvFuel kexd n (.live { s with pending := rest }) := by
  rw [Session.recvFuel, hrk, hp]
  cases p <;> simp_all [Packet.isTransparent, Packet.isKexInit]

theorem recvFuel_step_disconnect (kexd : Kexd) (n : Nat) (s : SshStream)
    (reason : DisconnectReason) (description : String) (rest : List Packet)
    (hrk : s.rekeyable = false) (hp : s.pending = .disconnect reason description :: rest) :
    Session.recvFuel kexd (n + 1) (.live s) =
      some (.error (.disconnected ⟨.them, reason, description⟩),
            .terminated ⟨.them, reason, description⟩) := by
  rw [Session.recvFuel, hrk, hp]
  simp [Packet.isKexInit]

theorem recvFuel_step_other (kexd : Kexd) (n : Nat) (s : SshStream) (p : Packet)
    (rest : List Packet) (hrk : s.rekeyable = false) (hp : s.pending = p :: rest)
    (ht : p.isTransparent = false) (hd : p.isDisconnect = false) (hkx : p.isKexInit = false) :
    Session.recvFuel kexd (n + 1) (.live s) = some (.ok p, .live { s with pending := rest }) := by
  rw [Session.recvFuel, hrk, hp]
  cases p <;>
    simp_all [Packet.isTransparent, Packet.isDisconnect, Packet.isKexInit]

theorem packet_shape_of_not (p : Packet)
    (hnd : ∀ r d, p = .disconnect r d → False)
    (hni : ∀ data, p = .ignore data → False)
    (hnu : ∀ seq, p = .unimplemented seq → False)
    (hndbg : ∀ m, p = .debug m → False) :
    p.isTransparent = false ∧ p.isDisconnect = false := by
  cases p <;>
    first
      | exact ⟨rfl, rfl⟩
      | exact (hnd _ _ rfl).elim
      | exact (hni _ rfl).elim
      | exact (hnu _ rfl).elim
      | exact (hndbg _ rfl).elim

theorem recvFuel_ok_shape (kexd : Kexd) :
    ∀ (m : Nat) (st : Session) (q : Packet) (st2 : Session),
      Session.recvFuel kexd m st = some (.ok q, st2) →
      q.isTransparent = false ∧ q.isDisconnect = false := by
  intro m
  induction m with
  | zero =>
    intro st q st2 h
    cases st <;> simp [Session.recvFuel] at h
  | succ n ih =>
    intro st q st2 h
    cases st with
    | terminated e => simp [Session.recvFuel] at h
    | live s =>
      rw [Session.recvFuel] at h
      split at h
      · split at h
        · simp at h
        · exact ih _ _ _ h
      · split at h
        · simp at h
        · split at h
          · split at h
            · simp at h
            · exact ih _ _ _ h
          · split at h
            · simp at h
            · exact ih _ _ _ h
            · exact ih _ _ _ h
            · exact ih _ _ _ h
            · simp only [Option.some.injEq, Prod.mk.injEq, Except.ok.injEq] at h
              obtain ⟨rfl, rfl⟩ := h
              rename_i hnd hni hnu hndbg
              exact packet_shape_of_not _ hnd hni hnu hndbg

theorem send_live_no_kex (kexd : Kexd) (msg : Packet) (s : SshStream)
    (hrk : s.rekeyable = false)
    (hhd : (match s.pending.head? with | some p => p.isKexInit | Option.none => false) = false) :
    Session.send kexd msg (.live s) = (.ok (), .live { s with sent := s.sent ++ [msg] }) := by
  rw [Session.send, hrk, hhd]
  simp

/-- C1: for a client-side `Auth` layer in state `Unauthorized`, the source'
`on_kex` (client/mod.rs lines 72-86) performs no userauth handshake at all: it
writes nothing to the stream (no `SERVICE_REQUEST`, no `USERAUTH_REQUEST`) and
moves directly to `Authorized`, returning the stream untouched. This records
the divergence between the source and the specified handshake. -/
theorem client_on_kex_no_handshake :
    ∀ s : SshStream,
      ClientAuth.on_kex ClientState.unauthorized s = (ClientState.authorized, s) ∧
      (ClientAuth.on_kex ClientState.unauthorized s).2.sent = s.sent := by
  intro s
  exact ⟨rfl, rfl⟩

/-- C4: a terminated session is sticky — `recv` (at any fuel), `send` (for any
message) and `readable` all return the stored `DisconnectedError` unchanged and
leave the session in the same terminated state, never touching a stream. -/
theorem session_terminated_sticky :
    ∀ (kexd : Kexd) (e : DisconnectedError) (n : Nat) (msg : Packet),
      Session.recvFuel kexd n (.terminated e) = some (.error (.disconnected e), .terminated e) ∧
      Session.send kexd msg (.terminated e) = (.error (.disconnected e), .terminated e) ∧
      Session.readable (.terminated e) = (.error (.disconnected e), .terminated e) := by
  intro kexd e n msg
  refine ⟨?_, rfl, rfl⟩
  cases n <;> rfl

/-- C8: `Transport::pad(buf, n)` returns `Ok` of `[n] ∥ buf ∥ random[n]`: a
vector of length `|buf| + n + 1` whose first byte is the padding length `n`,
whose next `|buf|` bytes are `buf` unchanged, followed by `n` freshly drawn
padding bytes. -/
theorem transport_pad_layout :
    ∀ (buf : List Nat) (n : Nat) (rng : Nat → Nat),
      ∃ padBytes : List Nat,
        padBytes.length = n ∧
        Transport.pad buf n rng = .ok (n :: (buf ++ padBytes)) ∧
        (n :: (buf ++ padBytes)).length = buf.length + n + 1 := by
  intro buf n rng
  refine ⟨(List.range n).map rng, by simp, rfl, by simp⟩

/-- C3: dispatch behaviour of `Session::recv` — a transparent packet
(Ignore/Debug/Unimplemented) is consumed and the loop continues on the rest; a
`Disconnect` packet moves the session to the terminated state and surfaces the
`Disconnected` error with `by = Them` and the packet's reason and description;
any other (non-KEXINIT) packet is returned as-is; and whatever the state, fuel
and kex driver, a packet surfaced by `recv` is never transparent and never a
`Disconnect`. -/
theorem recv_dispatch_spec :
    ∀ (kexd : Kexd) (n : Nat) (s : SshStream) (p : Packet) (rest : List Packet),
      s.rekeyable = false → s.pending = p :: rest →
      ((p.isTransparent = true →
          Session.recvFuel kexd (n + 1) (.live s) =
            Session.recvFuel kexd n (.live { s with pending := rest })) ∧
       (∀ r d, p = .disconnect r d →
          Session.recvFuel kexd (n + 1) (.live s) =
            some (.error (.disconnected ⟨.them, r, d⟩), .terminated ⟨.them, r, d⟩)) ∧
       (p.isTransparent = false → p.isDisconnect = false → p.isKexInit = false →
          Session.recvFuel kexd (n + 1) (.live s) =
            some (.ok p, .live { s with pending := rest })) ∧
       (∀ (m : Nat) (st : Session) (q : Packet) (st2 : Session),
          Session.recvFuel kexd m st = some (.ok q, st2) →
          q.isTransparent = false ∧ q.isDisconnect = false)) := by
  intro kexd n s p rest hrk hp
  refine ⟨?_, ?_, ?_, ?_⟩
  · intro ht
    exact recvFuel_step_transparent kexd n s p rest hrk hp ht
  · intro r d hpd
    subst hpd
    exact recvFuel_step_disconnect kexd n s r d rest hrk hp
  · intro ht hd hkx
    exact recvFuel_step_other kexd n s p rest hrk hp ht hd hkx
  · exact recvFuel_ok_shape kexd

/-- Witness for C3: a concrete one-packet stream where `recv` yields the packet. -/
theorem recv_dispatch_spec_witness :
    Session.recvFuel kexd0 1 (.live ⟨[Packet.other [7]], [], false, Option.none⟩) =
      some (.ok (Packet.other [7]), .live ⟨[], [], false, Option.none⟩) :=
  (recv_dispatch_spec kexd0 0 ⟨[Packet.other [7]], [], false, Option.none⟩
      (Packet.other [7]) [] rfl rfl).2.2.1 rfl rfl rfl

/-- C5 fails as stated: both peers list only `diffie-hellman-group14-sha256`,
so the kex-algorithm intersection is non-empty, yet `negociate` does not
return that first common algorithm — it fails with `NoCommonKex`, because the
common name does not parse into a supported `Kex` variant. -/
theorem negociate_nonempty_intersection_cex :
    (["diffie-hellman-group14-sha256"] : List String).filter
        (fun a => (["diffie-hellman-group14-sha256"] : List String).contains a) ≠ [] ∧
      negociate ["diffie-hellman-group14-sha256"] ["diffie-hellman-group14-sha256"] =
        Except.error Error.noCommonKex := by
  exact ⟨by decide, rfl⟩

/-- C5 (amended): `negociate` fails with `NoCommonKex` when the two lists have
no common name; when the first client-preferred name present in the server's
list exists, the result is that name parsed as a `Kex` — `Ok` of the parsed
algorithm when it is supported, and `NoCommonKex` when it is not. -/
theorem negociate_characterization :
    ∀ (c s : List String),
      ((∀ a ∈ c, s.contains a = false) → negociate c s = .error .noCommonKex) ∧
      (preferredIn c s = Option.none → negociate c s = .error .noCommonKex) ∧
      (∀ name, preferredIn c s = some name →
        name ∈ c ∧ s.contains name = true ∧
        negociate c s =
          (match Kex.parse name with
           | Option.none => Except.error Error.noCommonKex
           | some k => Except.ok k)) := by
  intro c s
  refine ⟨?_, ?_, ?_⟩
  · intro hall
    have hnone : preferredIn c s = Option.none := by
      rw [preferredIn, List.find?_eq_none]
      intro a ha
      simpa [List.contains] using hall a ha
    rw [negociate, hnone]
  · intro hnone
    rw [negociate, hnone]
  · intro name hfind
    refine ⟨List.mem_of_find?_eq_some hfind, ?_, ?_⟩
    · have := List.find?_some hfind
      simpa using this
    · rw [negociate, hfind]

/-- Witness for C5 (amended): both peers list `curve25519-sha256` first; the
negotiated result is `Ok Curve25519Sha256`. -/
theorem negociate_characterization_witness :
    negociate ["curve25519-sha256"] ["curve25519-sha256"] =
      (match Kex.parse "curve25519-sha256" with
       | Option.none => Except.error Error.noCommonKex
       | some k => Except.ok k) :=
  ((negociate_characterization ["curve25519-sha256"] ["curve25519-sha256"]).2.2
      "curve25519-sha256" (by decide)).2.2

/-- C6 fails as stated: a concrete `request("ssh-userauth")` that receives
`SERVICE_ACCEPT("wrong")` disconnects with reason `ServiceNotAvailable`, not
with the protocol-error reason the claim asserts. -/
theorem service_request_mismatch_cex :
    Session.request kexd0 1 "ssh-userauth"
        (.live ⟨[Packet.serviceAccept "wrong"], [], false, Option.none⟩) =
      some (.error (.disconnected
          ⟨.us, .serviceNotAvailable, "Accepted service is unknown"⟩),
        .terminated ⟨.us, .serviceNotAvailable, "Accepted service is unknown"⟩) ∧
      DisconnectReason.serviceNotAvailable ≠ DisconnectReason.protocolError := by
  exact ⟨rfl, by decide⟩

/-- C6 (amended): in `Session::request`, a `SERVICE_ACCEPT` whose service name
differs from the requested name produces a `ServiceNotAvailable` disconnect:
the session sends a DISCONNECT and terminates with the sticky error
`{ by: Us, reason: ServiceNotAvailable, "Accepted service is unknown" }`,
and `on_accept` is not invoked (the result is that error, never `Ok`). -/
theorem service_request_mismatch_spec :
    ∀ (kexd : Kexd) (fuel : Nat) (name accName : String) (s : SshStream)
      (rest : List Packet),
      s.rekeyable = false →
      s.pending = Packet.serviceAccept accName :: rest →
      (∀ p, rest.head? = some p → p.isKexInit = false) →
      accName ≠ name →
      Session.request kexd (fuel + 1) name (.live s) =
        some (.error (.disconnected
            ⟨.us, .serviceNotAvailable, "Accepted service is unknown"⟩),
          .terminated ⟨.us, .serviceNotAvailable, "Accepted service is unknown"⟩) := by
  intro kexd fuel name accName s rest hrk hp hrest hne
  have hhd : (match s.pending.head? with
      | some p => p.isKexInit
      | Option.none => false) = false := by
    rw [hp]
    rfl
  have hstep := recvFuel_step_other kexd fuel
      { s with sent := s.sent ++ [Packet.serviceRequest name] }
      (Packet.serviceAccept accName) rest hrk hp rfl rfl rfl
  have hhd2 : (match rest.head? with
      | some p => p.isKexInit
      | Option.none => false) = false := by
    cases hr : rest with
    | nil => rfl
    | cons p2 rest2 => simpa using hrest p2 (by rw [hr]; rfl)
  have hsend2 := send_live_no_kex kexd
      (Packet.disconnect .serviceNotAvailable "Accepted service is unknown")
      { pending := rest, sent := s.sent ++ [Packet.serviceRequest name],
        rekeyable := s.rekeyable, sessionId := s.sessionId } hrk hhd2
  simp only [Session.request, send_live_no_kex kexd (Packet.serviceRequest name) s hrk hhd,
    hstep, if_neg hne, Session.disconnect, hsend2]

/-- Witness for C6 (amended): a concrete mismatching `SERVICE_ACCEPT`. -/
theorem service_request_mismatch_spec_witness :
    Session.request kexd0 1 "ssh-userauth"
        (.live ⟨[Packet.serviceAccept "mismatch"], [], false, Option.none⟩) =
      some (.error (.disconnected
          ⟨.us, .serviceNotAvailable, "Accepted service is unknown"⟩),
        .terminated ⟨.us, .serviceNotAvailable, "Accepted service is unknown"⟩) :=
  service_request_mismatch_spec kexd0 0 "ssh-userauth" "mismatch"
    ⟨[Packet.serviceAccept "mismatch"], [], false, Option.none⟩ []
    rfl rfl (fun p hp => nomatch hp) (by decide)

/-- C7: a `USERAUTH_REQUEST` whose method is not in the currently-allowed set is
answered with `USERAUTH_FAILURE` carrying the allowed set and
`partial_success = false`, and the loop continues with the state unchanged; the
equation holds for every collaborator bundle `H`, so no per-method handler is
consulted for the rejected attempt. -/
theorem auth_unlisted_method_spec :
    ∀ (H : AuthHandlers) (kexd : Kexd) (fuel : Nat) (auth : AuthSt) (s : SshStream)
      (u svc : String) (m : AuthMethod) (rest : List Packet),
      s.rekeyable = false →
      s.pending = Packet.userauthRequest u svc m :: rest →
      auth.methods.mem m.toMethod = false →
      Auth.proceedLoop H kexd (fuel + 1) auth (.live s) =
        (match Session.send kexd (Packet.userauthFailure auth.methods false)
            (.live { s with pending := rest }) with
         | (.error e, _) => some (.error e)
         | (.ok _, s2) => Auth.proceedLoop H kexd fuel auth s2) := by
  intro H kexd fuel auth s u svc m rest hrk hp hmem
  have hstep := recvFuel_step_other kexd fuel s
      (Packet.userauthRequest u svc m) rest hrk hp rfl rfl rfl
  rw [Auth.proceedLoop, hstep]
  simp [hmem]

/-- Witness for C7: a concrete rejected `password` attempt against a server
allowing only `none`. -/
theorem auth_unlisted_method_spec_witness :
    Auth.proceedLoop H0 kexd0 1 ⟨Option.none, ⟨true, false, false, false, false⟩⟩
        (.live ⟨[Packet.userauthRequest "u" "svc"
            (AuthMethod.password "pw" Option.none)], [], false, Option.none⟩) =
      (match Session.send kexd0
          (Packet.userauthFailure ⟨true, false, false, false, false⟩ false)
          (.live ⟨[], [], false, Option.none⟩) with
       | (.error e, _) => some (.error e)
       | (.ok _, s2) => Auth.proceedLoop H0 kexd0 0 ⟨Option.none, ⟨true, false, false, false, false⟩⟩ s2) :=
  auth_unlisted_method_spec H0 kexd0 0 ⟨Option.none, ⟨true, false, false, false, false⟩⟩
    ⟨[Packet.userauthRequest "u" "svc" (AuthMethod.password "pw" Option.none)], [],
      false, Option.none⟩
    "u" "svc" (AuthMethod.password "pw" Option.none) [] rfl rfl rfl

/-- C9: a signed publickey `USERAUTH_REQUEST` whose key blob fails to parse, or
whose declared algorithm differs from the parsed key's algorithm, makes
`handle_attempt` return outcome `Failure` with both the auth state and the
session unchanged: nothing is sent at this level, the session is not
disconnected, and — since the equation holds for every collaborator bundle
with the stated key-parse behaviour, whatever its `publickey` handler — that
handler is not invoked. The enclosing dispatch then answers the `Failure` with
a `USERAUTH_FAILURE` message. -/
theorem publickey_bad_key_failure :
    ∀ (H : AuthHandlers) (kexd : Kexd) (auth : AuthSt) (session : Session)
      (u svc : String) (alg blob sig : List Nat),
      (H.parseKey blob = Option.none ∨
        (∃ k, H.parseKey blob = some k ∧ k.alg ≠ alg)) →
      Auth.handle_attempt H kexd auth session u
          (AuthMethod.publickey alg blob (some sig)) svc =
        .ok (.failure, auth, session) := by
  intro H kexd auth session u svc alg blob sig hbad
  rw [Auth.handle_attempt]
  rcases hbad with hnone | ⟨k, hk, hne⟩
  · rw [hnone]
  · rw [hk]
    simp only [if_neg hne]

/-- Witness for C9: a concrete signed publickey attempt whose blob fails to
parse. -/
theorem publickey_bad_key_failure_witness :
    Auth.handle_attempt H0 kexd0 ⟨Option.none, ⟨true, false, false, false, false⟩⟩
        (.live ⟨[], [], false, Option.none⟩) "u"
        (AuthMethod.publickey [1] [2] (some [3])) "svc" =
      .ok (.failure, ⟨Option.none, ⟨true, false, false, false, false⟩⟩,
        .live ⟨[], [], false, Option.none⟩) :=
  publickey_bad_key_failure H0 kexd0 ⟨Option.none, ⟨true, false, false, false, false⟩⟩
    (.live ⟨[], [], false, Option.none⟩) "u" "svc" [1] [2] [3] (Or.inl rfl)

/-- C2 fails as stated: in the dispatch context (the set after `remove` of the
attempted `publickey` method is `{none}`), a signature-less publickey attempt
whose blob fails to parse returns outcome `Failure` — yet `publickey` has been
restored to the set (handler/mod.rs line 210 runs before the parse check at
line 212), contradicting "restored exactly when the outcome is Continue". -/
theorem auth_restore_on_failure_cex :
    Auth.handle_attempt H0 kexd0 ⟨Option.none, ⟨true, false, false, false, false⟩⟩
        (.live ⟨[], [], false, Option.none⟩) "user"
        (AuthMethod.publickey [0] [1] Option.none) "ssh-connection" =
      .ok (.failure, ⟨Option.none, ⟨true, false, true, false, false⟩⟩,
        .live ⟨[], [], false, Option.none⟩) ∧
      Attempt.failure ≠ Attempt.continue_ ∧
      MethodSet.mem ⟨true, false, true, false, false⟩ Method.publickey = true := by
  exact ⟨rfl, by decide, rfl⟩

/-- C10: under the window contract (a reservation never exceeds the request),
`poll_write` preserves `buffer.len() ≤ max_size`, returns a count bounded by
the input length (equal to the amount appended to the buffer, bounded by
`max_size` minus the buffer length at the time of appending), and every data
packet it flushes carries at most `max_size` bytes of payload. -/
theorem write_buffer_bounded :
    ∀ (reserve : Nat → Nat) (buf : List Nat) (fuel : Nat) (st : WriteSt)
      (n : Nat) (st2 : WriteSt),
      (∀ k, reserve k ≤ k) →
      st.buffer.length ≤ st.maxSize →
      Write.poll_write reserve buf fuel st = some (n, st2) →
      st2.maxSize = st.maxSize ∧
      st2.buffer.length ≤ st.maxSize ∧
      n ≤ buf.length ∧
      ((st2.buffer = st.buffer ++ buf.take n ∧ n ≤ st.maxSize - st.buffer.length) ∨
        (st2.buffer = buf.take n ∧ n ≤ st.maxSize)) ∧
      (∃ extra, st2.sentPackets = st.sentPackets ++ extra ∧
        ∀ p ∈ extra, p.dataLen ≤ st.maxSize) := by
  intro reserve buf fuel
  induction fuel with
  | zero =>
    intro st n st2 hr hinv h
    simp [Write.poll_write] at h
  | succ fuel ih =>
    intro st n st2 hr hinv h
    rw [Write.poll_write] at h
    by_cases hw : min buf.length (st.maxSize - st.buffer.length) = 0
    · rw [if_pos hw] at h
      have hinv2 : (Write.poll_send st).buffer.length ≤ (Write.poll_send st).maxSize := by
        simp [Write.poll_send]
      obtain ⟨h1, h2, h3, h4, extra, h5, h6⟩ := ih (Write.poll_send st) n st2 hr hinv2 h
      have hmax : (Write.poll_send st).maxSize = st.maxSize := by
        simp [Write.poll_send]
      have hbuf : (Write.poll_send st).buffer = [] := by
        simp [Write.poll_send]
      have hsent : (Write.poll_send st).sentPackets =
          st.sentPackets ++ [match st.streamId with
            | some dataType => DataPacket.channelExtendedData st.remoteId dataType st.buffer
            | Option.none => DataPacket.channelData st.remoteId st.buffer] := by
        simp [Write.poll_send]
      refine ⟨by rw [h1, hmax], by rw [← hmax]; exact h2, h3, ?_, ?_⟩
      · rcases h4 with ⟨hb, hn⟩ | ⟨hb, hn⟩
        · right
          rw [hbuf] at hb hn
          simp at hb
          exact ⟨hb, by rw [← hmax]; omega⟩
        · right
          exact ⟨hb, by rw [← hmax]; exact hn⟩
      · refine ⟨(match st.streamId with
            | some dataType => DataPacket.channelExtendedData st.remoteId dataType st.buffer
            | Option.none => DataPacket.channelData st.remoteId st.buffer) :: extra, ?_, ?_⟩
        · rw [h5, hsent]
          simp
        · intro p hp
          cases hp with
          | head =>
            cases hsid : st.streamId <;> simpa [DataPacket.dataLen] using hinv
          | tail _ hp2 =>
            have := h6 p hp2
            rw [hmax] at this
            exact this
    · rw [if_neg hw] at h
      simp only [Option.some.injEq, Prod.mk.injEq] at h
      obtain ⟨rfl, rfl⟩ := h
      have hres : reserve (min buf.length (st.maxSize - st.buffer.length)) ≤
          min buf.length (st.maxSize - st.buffer.length) := hr _
      refine ⟨rfl, ?_, ?_, Or.inl ⟨rfl, ?_⟩, ⟨[], by simp, by simp⟩⟩
      · simp only [List.length_append, List.length_take]
        omega
      · omega
      · omega

/-- A concrete write-adapter state with an empty buffer and `max_size = 4`. -/
def w0 : WriteSt := ⟨0, Option.none, [], [], 4⟩

/-- The state after appending three bytes to `w0`. -/
def w1 : WriteSt := ⟨0, Option.none, [1, 2, 3], [], 4⟩

/-- Witness for C10: a concrete `poll_write` of three bytes into an empty
buffer with `max_size = 4` and an identity window. -/
theorem write_buffer_bounded_witness :
    w1.buffer.length ≤ w0.maxSize :=
  (write_buffer_bounded (fun k => k) [1, 2, 3] 1 w0 3 w1
    (fun k => Nat.le_refl k) (by decide) (by decide)).2.1

theorem MethodSet.mem_insert_self (s : MethodSet) (m : Method) :
    (s.insert m).mem m = true := by
  cases m <;> rfl

theorem handle_attempt_set_change (H : AuthHandlers) (kexd : Kexd) (auth : AuthSt)
    (session : Session) (u : String) (m : AuthMethod) (svc : String)
    (att : Attempt) (auth2 : AuthSt) (s2 : Session)
    (hha : Auth.handle_attempt H kexd auth session u m svc = .ok (att, auth2, s2)) :
    (att = .continue_ → auth2.methods = auth.methods.insert m.toMethod) ∧
    (auth2.methods = auth.methods ∨
      (auth2.methods = auth.methods.insert m.toMethod ∧
        (att = .continue_ ∨
          (att = .failure ∧ m.isQuery = true ∧
            H.parseKey (m.blob?.getD []) = Option.none)))) := by
  cases m with
  | none =>
    simp only [Auth.handle_attempt] at hha
    cases hn : H.noneH u <;> rw [hn] at hha <;>
      simp only [Except.ok.injEq, Prod.mk.injEq] at hha <;>
      obtain ⟨h1, h2, h3⟩ := hha <;> subst h1 <;> subst h2 <;>
      exact ⟨fun hc => absurd hc (by decide), Or.inl rfl⟩
  | publickey alg blob sig =>
    simp only [Auth.handle_attempt] at hha
    cases sig with
    | some sg =>
      dsimp only at hha
      cases hk : H.parseKey blob with
      | none =>
        rw [hk] at hha
        simp only [Except.ok.injEq, Prod.mk.injEq] at hha
        obtain ⟨h1, h2, h3⟩ := hha
        subst h1; subst h2
        exact ⟨fun hc => absurd hc (by decide), Or.inl rfl⟩
      | some k =>
        rw [hk] at hha
        dsimp only at hha
        by_cases ha : k.alg = alg
        · rw [if_pos ha] at hha
          cases hps : H.parseSig sg with
          | none => rw [hps] at hha; simp at hha
          | some sgv =>
            rw [hps] at hha
            dsimp only at hha
            by_cases hv : (H.verify
                ⟨session.sessionIdOrDefault, u, svc, alg, blob⟩ k sgv &&
                  (H.publickeyH u k == PkResponse.accept)) = true
            · rw [if_pos hv] at hha
              simp only [Except.ok.injEq, Prod.mk.injEq] at hha
              obtain ⟨h1, h2, h3⟩ := hha
              subst h1; subst h2
              exact ⟨fun hc => absurd hc (by decide), Or.inl rfl⟩
            · rw [if_neg hv] at hha
              simp only [Except.ok.injEq, Prod.mk.injEq] at hha
              obtain ⟨h1, h2, h3⟩ := hha
              subst h1; subst h2
              exact ⟨fun hc => absurd hc (by decide), Or.inl rfl⟩
        · rw [if_neg ha] at hha
          simp only [Except.ok.injEq, Prod.mk.injEq] at hha
          obtain ⟨h1, h2, h3⟩ := hha
          subst h1; subst h2
          exact ⟨fun hc => absurd hc (by decide), Or.inl rfl⟩
    | none =>
      dsimp only at hha
      cases hk : H.parseKey blob with
      | some k =>
        rw [hk] at hha
        dsimp only at hha
        cases hsend : Session.send kexd (Packet.userauthPkOk blob alg) session with
        | mk fst snd =>
          cases fst with
          | error e => rw [hsend] at hha; simp at hha
          | ok a =>
            rw [hsend] at hha
            dsimp only at hha
            simp only [Except.ok.injEq, Prod.mk.injEq] at hha
            obtain ⟨h1, h2, h3⟩ := hha
            subst h1; subst h2
            exact ⟨fun _ => rfl, Or.inr ⟨rfl, Or.inl rfl⟩⟩
      | none =>
        rw [hk] at hha
        dsimp only at hha
        simp only [Except.ok.injEq, Prod.mk.injEq] at hha
        obtain ⟨h1, h2, h3⟩ := hha
        subst h1; subst h2
        exact ⟨fun hc => absurd hc (by decide),
          Or.inr ⟨rfl, Or.inr ⟨rfl, rfl, hk⟩⟩⟩
  | password pw new =>
    simp only [Auth.handle_attempt] at hha
    cases hpw : H.passwordH u pw new with
    | accept =>
      rw [hpw] at hha
      simp only [Except.ok.injEq, Prod.mk.injEq] at hha
      obtain ⟨h1, h2, h3⟩ := hha
      subst h1; subst h2
      exact ⟨fun hc => absurd hc (by decide), Or.inl rfl⟩
    | reject =>
      rw [hpw] at hha
      simp only [Except.ok.injEq, Prod.mk.injEq] at hha
      obtain ⟨h1, h2, h3⟩ := hha
      subst h1; subst h2
      exact ⟨fun hc => absurd hc (by decide), Or.inl rfl⟩
    | passwordExpired prompt =>
      rw [hpw] at hha
      dsimp only at hha
      cases hsend : Session.send kexd (Packet.userauthPasswdChangereq prompt) session with
      | mk fst snd =>
        cases fst with
        | error e => rw [hsend] at hha; simp at hha
        | ok a =>
          rw [hsend] at hha
          dsimp only at hha
          simp only [Except.ok.injEq, Prod.mk.injEq] at hha
          obtain ⟨h1, h2, h3⟩ := hha
          subst h1; subst h2
          exact ⟨fun _ => rfl, Or.inr ⟨rfl, Or.inl rfl⟩⟩
  | hostbased =>
    simp only [Auth.handle_attempt] at hha
    simp at hha
  | keyboardInteractive =>
    simp only [Auth.handle_attempt] at hha
    simp at hha

/-- C2 (amended): in the server responder, every dispatched `USERAUTH_REQUEST`
has its method removed from the allowed set before `handle_attempt` runs; the
method is restored when the outcome is Continue, and additionally a
signature-less publickey attempt whose blob fails to parse restores
`publickey` even though its outcome is Failure; no other outcome restores; and
every `USERAUTH_FAILURE` sent carries `continue_with` equal to the allowed set
at the moment of sending (the post-attempt set). -/
theorem auth_method_set_bookkeeping :
    ∀ (H : AuthHandlers) (kexd : Kexd) (fuel : Nat) (auth : AuthSt) (s : SshStream)
      (u svc : String) (m : AuthMethod) (rest : List Packet)
      (att : Attempt) (auth2 : AuthSt) (s2 : Session),
      s.rekeyable = false →
      s.pending = Packet.userauthRequest u svc m :: rest →
      auth.methods.mem m.toMethod = true →
      Auth.handle_attempt H kexd { auth with methods := auth.methods.erase m.toMethod }
          (.live { s with pending := rest }) u m svc = .ok (att, auth2, s2) →
      (Auth.proceedLoop H kexd (fuel + 1) auth (.live s) =
        (match att with
         | .success =>
           (match Session.send kexd Packet.userauthSuccess s2 with
            | (.error e, _) => some (.error e)
            | (.ok _, s3) =>
              (match H.serviceH svc with
               | .error e => some (.error e)
               | .ok _ => some (.ok (svc, auth2, s3))))
         | .failure =>
           (match Session.send kexd (Packet.userauthFailure auth2.methods false) s2 with
            | (.error e, _) => some (.error e)
            | (.ok _, s3) => Auth.proceedLoop H kexd fuel auth2 s3)
         | .partialSuccess =>
           (match Session.send kexd (Packet.userauthFailure auth2.methods true) s2 with
            | (.error e, _) => some (.error e)
            | (.ok _, s3) => Auth.proceedLoop H kexd fuel auth2 s3)
         | .continue_ => Auth.proceedLoop H kexd fuel auth2 s2)) ∧
      (att = .continue_ → auth2.methods.mem m.toMethod = true) ∧
      (auth2.methods ≠ auth.methods.erase m.toMethod →
        auth2.methods = (auth.methods.erase m.toMethod).insert m.toMethod ∧
        (att = .continue_ ∨
          (att = .failure ∧ m.isQuery = true ∧
            H.parseKey (m.blob?.getD []) = Option.none))) := by
  intro H kexd fuel auth s u svc m rest att auth2 s2 hrk hp hmem hha
  have hchange := handle_attempt_set_change H kexd
      { auth with methods := auth.methods.erase m.toMethod }
      (.live { s with pending := rest }) u m svc att auth2 s2 hha
  refine ⟨?_, ?_, ?_⟩
  · have hstep := recvFuel_step_other kexd fuel s
        (Packet.userauthRequest u svc m) rest hrk hp rfl rfl rfl
    rw [Auth.proceedLoop, hstep]
    dsimp only
    rw [if_pos hmem, hha]
    cases att <;> rfl
  · intro hc
    rw [hchange.1 hc]
    exact MethodSet.mem_insert_self _ _
  · intro hne
    rcases hchange.2 with heq | ⟨heq, hcase⟩
    · exact absurd heq hne
    · exact ⟨heq, hcase⟩

/-- Witness for C2 (amended): a concrete rejected `none` attempt — the method
is removed before the handler runs, the outcome is Failure, nothing is
restored, and the `USERAUTH_FAILURE` carries the post-attempt set. -/
theorem auth_method_set_bookkeeping_witness :
    Auth.proceedLoop H0 kexd0 1 ⟨Option.none, ⟨true, false, false, false, false⟩⟩
        (.live ⟨[Packet.userauthRequest "u" "svc" AuthMethod.none], [],
          false, Option.none⟩) =
      (match Session.send kexd0
          (Packet.userauthFailure ⟨false, false, false, false, false⟩ false)
          (.live ⟨[], [], false, Option.none⟩) with
       | (.error e, _) => some (.error e)
       | (.ok _, s3) =>
         Auth.proceedLoop H0 kexd0 0
           ⟨Option.none, ⟨false, false, false, false, false⟩⟩ s3) :=
  (auth_method_set_bookkeeping H0 kexd0 0
      ⟨Option.none, ⟨true, false, false, false, false⟩⟩
      ⟨[Packet.userauthRequest "u" "svc" AuthMethod.none], [], false, Option.none⟩
      "u" "svc" AuthMethod.none []
      Attempt.failure ⟨Option.none, ⟨false, false, false, false, false⟩⟩
      (.live ⟨[], [], false, Option.none⟩)
      rfl rfl rfl rfl).1
